import Mathlib

/-!
Verification development for the MPC file-storage gateway
(`backend/server.js`).  The server exposes four Express routes —
`/upload`, `/create`, `/edit`, `/delete` — all operating on files under
`BASE_DIR = path.join(__dirname, 'user_files')`.

Embedding choices:
* An absolute filesystem path is a list of segments (no leading slash
  segment; `[]` is the filesystem root `/`).
* `path.join(BASE_DIR, filename)` is modelled by splitting `filename` on
  `/`, dropping empty and `.` segments, and folding the result onto
  `BASE_DIR`, where a `..` segment pops one segment (clamped at the
  root, as Node's normalization does for absolute paths).  Note that
  `path.join` does not special-case an absolute second argument: the
  leading `/` of the filename becomes an empty segment and is dropped.
* The filesystem is a set of directories plus a finite map from paths to
  string contents.  `fs.writeFile` creates-or-overwrites, failing with
  EISDIR when the target is a directory and ENOENT when the parent
  directory does not exist; `fs.unlink` fails with ENOENT when the
  target file does not exist and EISDIR when it is a directory.  Error
  messages are abstracted to the errno tag, the syscall and the path
  (the shape of Node's `err.message`).
* Each route handler is a function from the pre-state and the request
  fields to the post-state and the HTTP response it sends, exactly
  following the callback logic in `server.js`: on error, status 500 with
  body `{ error: err.message }` and no further mutation; on success,
  status 200 with the route's fixed `{ message: ... }` string.
* The multer `upload.array('files')` middleware writes each incoming
  file to `path.join(BASE_DIR, file.originalname)` in order before the
  `/upload` handler body runs; a failing write aborts the remaining
  writes (earlier writes persist) and is reported as a 500 error.
-/

/-- An absolute path, as the list of its segments from the filesystem
root. -/
abbrev AbsPath := List String

/-- The storage root of the server: `path.join(__dirname, 'user_files')`
with `server.js` living in `/srv/backend`. -/
def BASE_DIR : AbsPath := ["srv", "backend", "user_files"]

/-- Split a character list on the separator character `/`. -/
def splitChars : List Char → List Char → List (List Char)
  | cur, [] => [cur.reverse]
  | cur, c :: cs =>
    if c = '/' then cur.reverse :: splitChars [] cs
    else splitChars (c :: cur) cs

/-- A segment survives Node path normalization when it is neither empty
nor the no-op segment `.`. -/
def keepSeg (s : String) : Bool := s != "" && s != "."

/-- The segments of a client-supplied filename, as Node sees them:
split on `/`, drop empty and `.` segments. -/
def splitSegs (s : String) : List String :=
  ((splitChars [] s.data).map (fun l => String.mk l)).filter keepSeg

/-- Fold filename segments onto an absolute base path: `..` pops one
segment (clamped at the root), any other segment is appended.  This is
the normalization `path.join` performs on an absolute result. -/
def resolveSegs (acc : AbsPath) : List String → AbsPath
  | [] => acc
  | s :: rest =>
    if s = ".." then resolveSegs acc.dropLast rest
    else resolveSegs (acc ++ [s]) rest

/-- `path.join(base, filename)` for an absolute `base`. -/
def joinResolve (base : AbsPath) (filename : String) : AbsPath :=
  resolveSegs base (splitSegs filename)

/-- An absolute path rendered as a string, for error messages. -/
def pathStr (p : AbsPath) : String := "/" ++ String.intercalate "/" p

/-- The filesystem errors the gateway can surface: missing target or
parent (ENOENT, tagged with the failing syscall) and
directory-as-file-target (EISDIR). -/
inductive FsErr where
  | enoentOpen (p : AbsPath)
  | enoentUnlink (p : AbsPath)
  | eisdir (p : AbsPath)
deriving DecidableEq

/-- The `err.message` string Node attaches to each error (abstracted to
errno tag, syscall and path). -/
def FsErr.message : FsErr → String
  | .enoentOpen p => "ENOENT: no such file or directory, open " ++ pathStr p
  | .enoentUnlink p => "ENOENT: no such file or directory, unlink " ++ pathStr p
  | .eisdir p => "EISDIR: illegal operation on a directory, open " ++ pathStr p

/-- Filesystem state: the set of existing directories and a finite map
from absolute paths to file contents. -/
structure FS where
  dirs : List AbsPath
  files : List (AbsPath × String)
deriving DecidableEq

/-- Whether `p` is an existing directory (`[]` is the root, which always
exists). -/
def FS.isDir (fs : FS) (p : AbsPath) : Bool := p == [] || fs.dirs.contains p

/-- The content stored at `p`, if a file exists there. -/
def getFile (fs : FS) (p : AbsPath) : Option String :=
  (fs.files.find? (fun e => e.1 == p)).map (fun e => e.2)

/-- Store content `c` at path `p`, replacing any previous entry. -/
def setFile (fs : FS) (p : AbsPath) (c : String) : FS :=
  { fs with files := (p, c) :: fs.files.filter (fun e => e.1 != p) }

/-- Remove the file entry at path `p`. -/
def removeFile (fs : FS) (p : AbsPath) : FS :=
  { fs with files := fs.files.filter (fun e => e.1 != p) }

/-- The parent directory of a path. -/
def parentDir (p : AbsPath) : AbsPath := p.dropLast

/-- `fs.writeFile(p, c, cb)`: create-or-overwrite the file at `p`.
Fails with EISDIR when `p` is a directory, ENOENT when the parent
directory does not exist. -/
def writeFile (fs : FS) (p : AbsPath) (c : String) : Except FsErr FS :=
  if fs.isDir p then .error (.eisdir p)
  else if fs.isDir (parentDir p) then .ok (setFile fs p c)
  else .error (.enoentOpen p)

/-- `fs.unlink(p, cb)`: remove the file at `p`.  Fails with EISDIR when
`p` is a directory and ENOENT when no file exists there. -/
def unlink (fs : FS) (p : AbsPath) : Except FsErr FS :=
  if fs.isDir p then .error (.eisdir p)
  else
    match getFile fs p with
    | some _ => .ok (removeFile fs p)
    | none => .error (.enoentUnlink p)

/-- An HTTP response body: `res.json({ message })` or
`res.json({ error })`. -/
inductive Body where
  | message (s : String)
  | error (s : String)
deriving DecidableEq

/-- Whether a body is an `{ error: ... }` body. -/
def Body.isError : Body → Bool
  | .message _ => false
  | .error _ => true

/-- An HTTP response: status code and JSON body. -/
structure Response where
  status : Nat
  body : Body
deriving DecidableEq

/-- The `/create` handler: joins the untrusted filename onto `BASE_DIR`
and calls `fs.writeFile`; on error responds 500 with `err.message`, on
success 200 with the fixed message. -/
def createHandler (fs : FS) (filename content : String) : FS × Response :=
  let filePath := joinResolve BASE_DIR filename
  match writeFile fs filePath content with
  | .error e => (fs, ⟨500, .error e.message⟩)
  | .ok fs1 => (fs1, ⟨200, .message "File created successfully!"⟩)

/-- The `/edit` handler: identical to `/create` except for the success
message. -/
def editHandler (fs : FS) (filename content : String) : FS × Response :=
  let filePath := joinResolve BASE_DIR filename
  match writeFile fs filePath content with
  | .error e => (fs, ⟨500, .error e.message⟩)
  | .ok fs1 => (fs1, ⟨200, .message "File edited successfully!"⟩)

/-- The `/delete` handler: joins the untrusted filename onto `BASE_DIR`
and calls `fs.unlink`; on error responds 500 with `err.message`, on
success 200 with the fixed message. -/
def deleteHandler (fs : FS) (filename : String) : FS × Response :=
  let filePath := joinResolve BASE_DIR filename
  match unlink fs filePath with
  | .error e => (fs, ⟨500, .error e.message⟩)
  | .ok fs1 => (fs1, ⟨200, .message "File deleted successfully!"⟩)

/-- The multer disk-storage middleware: write each uploaded file to
`path.join(BASE_DIR, file.originalname)` in order; a failing write stops
the batch (earlier writes persist). -/
def multerSave (fs : FS) : List (String × String) → FS × Option FsErr
  | [] => (fs, none)
  | (name, bytes) :: rest =>
    match writeFile fs (joinResolve BASE_DIR name) bytes with
    | .error e => (fs, some e)
    | .ok fs1 => multerSave fs1 rest

/-- The `/upload` route: multer saves the batch, then the handler sends
the fixed success message; a middleware error is reported as a 500
error response. -/
def uploadHandler (fs : FS) (files : List (String × String)) : FS × Response :=
  match multerSave fs files with
  | (fs1, some e) => (fs1, ⟨500, .error e.message⟩)
  | (fs1, none) => (fs1, ⟨200, .message "Files uploaded successfully!"⟩)

/-- The server state right after startup: `__dirname` and its ancestors
exist, `BASE_DIR` was just created by `fs.mkdirSync`, system directories
such as `/etc` exist, and no user file is stored yet. -/
def fs0 : FS :=
  { dirs := [["srv"], ["srv", "backend"], BASE_DIR, ["etc"]]
    files := [] }

/-- A path lies strictly inside the storage root when `BASE_DIR` is a
proper ancestor of it (the confinement invariant of the spec). -/
def insideBase (p : AbsPath) : Bool := BASE_DIR.isPrefixOf p && p != BASE_DIR

/-- A flat filename as the spec's valid-filename notion: non-empty, not
a `.`/`..` segment, no separator — it resolves to a direct child of the
storage root. -/
def simpleName (s : String) : Bool :=
  s != "" && s != "." && s != ".." && !(decide ('/' ∈ s.data))

/-! ### Helper lemmas -/

theorem splitChars_no_sep (cs : List Char) : ∀ cur : List Char, '/' ∉ cs →
    splitChars cur cs = [cur.reverse ++ cs] := by
  induction cs with
  | nil => intro cur _; simp [splitChars]
  | cons c cs ih =>
    intro cur h
    have hc : c ≠ '/' := fun hce => h (hce ▸ List.mem_cons_self c cs)
    have hrest : '/' ∉ cs := fun hm => h (List.mem_cons_of_mem c hm)
    rw [splitChars, if_neg (fun hce => hc hce), ih (c :: cur) hrest]
    simp

theorem splitSegs_simple (s : String) (hs : simpleName s = true) :
    splitSegs s = [s] := by
  simp only [simpleName, Bool.and_eq_true, bne_iff_ne, ne_eq,
    Bool.not_eq_true', decide_eq_false_iff_not] at hs
  obtain ⟨⟨⟨hne, hdot⟩, hdd⟩, hslash⟩ := hs
  unfold splitSegs
  rw [splitChars_no_sep s.data [] hslash]
  have hmk : String.mk s.data = s := by cases s; rfl
  simp only [List.reverse_nil, List.nil_append, List.map_cons, List.map_nil, hmk]
  have hkeep : keepSeg s = true := by
    simp [keepSeg, hne, hdot]
  simp [List.filter, hkeep]

theorem joinResolve_simple (s : String) (hs : simpleName s = true) :
    joinResolve BASE_DIR s = BASE_DIR ++ [s] := by
  have hdd : s ≠ ".." := by
    simp only [simpleName, Bool.and_eq_true, bne_iff_ne, ne_eq,
      Bool.not_eq_true', decide_eq_false_iff_not] at hs
    exact hs.1.2
  rw [joinResolve, splitSegs_simple s hs]
  simp only [resolveSegs, if_neg hdd]

theorem parentDir_child (base : AbsPath) (s : String) :
    parentDir (base ++ [s]) = base := by
  simp [parentDir]

theorem setFile_isDir (fs : FS) (p : AbsPath) (c : String) (q : AbsPath) :
    (setFile fs p c).isDir q = fs.isDir q := rfl

theorem getFile_setFile_self (fs : FS) (p : AbsPath) (c : String) :
    getFile (setFile fs p c) p = some c := by
  simp [getFile, setFile, List.find?]

theorem writeFile_ok (fs : FS) (p : AbsPath) (c : String)
    (hp : fs.isDir p = false) (hpar : fs.isDir (parentDir p) = true) :
    writeFile fs p c = .ok (setFile fs p c) := by
  simp [writeFile, hp, hpar]

theorem createHandler_ok (fs : FS) (n c : String)
    (hp : fs.isDir (joinResolve BASE_DIR n) = false)
    (hpar : fs.isDir (parentDir (joinResolve BASE_DIR n)) = true) :
    createHandler fs n c =
      (setFile fs (joinResolve BASE_DIR n) c,
       ⟨200, .message "File created successfully!"⟩) := by
  simp [createHandler, writeFile_ok fs _ c hp hpar]

theorem editHandler_ok (fs : FS) (n c : String)
    (hp : fs.isDir (joinResolve BASE_DIR n) = false)
    (hpar : fs.isDir (parentDir (joinResolve BASE_DIR n)) = true) :
    editHandler fs n c =
      (setFile fs (joinResolve BASE_DIR n) c,
       ⟨200, .message "File edited successfully!"⟩) := by
  simp [editHandler, writeFile_ok fs _ c hp hpar]

/-! ### Claim theorems -/

/-- C4: for every valid (flat) filename and every content, `Create`
followed by reading the file at the resolved path yields exactly the
supplied content (write/read round-trip).  Side conditions: the storage
root exists (guaranteed by the `fs.mkdirSync` at startup) and no
directory occupies the target path. -/
theorem C4_create_roundtrip (fs : FS) (name content : String)
    (hn : simpleName name = true)
    (hbase : fs.isDir BASE_DIR = true)
    (hfile : fs.isDir (BASE_DIR ++ [name]) = false) :
    getFile (createHandler fs name content).1 (joinResolve BASE_DIR name)
      = some content := by
  have hj := joinResolve_simple name hn
  have hp : fs.isDir (joinResolve BASE_DIR name) = false := by
    rw [hj]; exact hfile
  have hpar : fs.isDir (parentDir (joinResolve BASE_DIR name)) = true := by
    rw [hj, parentDir_child]; exact hbase
  rw [createHandler_ok fs name content hp hpar]
  exact getFile_setFile_self fs _ content

/-- Witness for C4: creating `notes.txt` with content `hello` on the
startup state and reading it back yields `hello`. -/
theorem C4_create_roundtrip_witness :
    simpleName "notes.txt" = true ∧
    fs0.isDir BASE_DIR = true ∧
    fs0.isDir (BASE_DIR ++ ["notes.txt"]) = false ∧
    getFile (createHandler fs0 "notes.txt" "hello").1
      (joinResolve BASE_DIR "notes.txt") = some "hello" :=
  ⟨by decide, by decide, by decide,
    C4_create_roundtrip fs0 "notes.txt" "hello" (by decide) (by decide)
      (by decide)⟩

/-- C5: `Edit` replaces the file content entirely — writing `a` and then
`b` to the same valid filename leaves the file holding exactly `b` (no
append, no merge). -/
theorem C5_edit_overwrites (fs : FS) (name a b : String)
    (hn : simpleName name = true)
    (hbase : fs.isDir BASE_DIR = true)
    (hfile : fs.isDir (BASE_DIR ++ [name]) = false) :
    getFile (editHandler (editHandler fs name a).1 name b).1
      (joinResolve BASE_DIR name) = some b := by
  have hj := joinResolve_simple name hn
  have hp : fs.isDir (joinResolve BASE_DIR name) = false := by
    rw [hj]; exact hfile
  have hpar : fs.isDir (parentDir (joinResolve BASE_DIR name)) = true := by
    rw [hj, parentDir_child]; exact hbase
  have hp2 : (setFile fs (joinResolve BASE_DIR name) a).isDir
      (joinResolve BASE_DIR name) = false := by
    rw [setFile_isDir]; exact hp
  have hpar2 : (setFile fs (joinResolve BASE_DIR name) a).isDir
      (parentDir (joinResolve BASE_DIR name)) = true := by
    rw [setFile_isDir]; exact hpar
  simp only [editHandler_ok fs name a hp hpar]
  simp only [editHandler_ok (setFile fs (joinResolve BASE_DIR name) a)
    name b hp2 hpar2]
  exact getFile_setFile_self _ _ b

/-- Witness for C5: editing `notes.txt` to `A` and then to `B` on the
startup state leaves it holding exactly `B`. -/
theorem C5_edit_overwrites_witness :
    simpleName "notes.txt" = true ∧
    fs0.isDir BASE_DIR = true ∧
    fs0.isDir (BASE_DIR ++ ["notes.txt"]) = false ∧
    getFile (editHandler (editHandler fs0 "notes.txt" "A").1 "notes.txt" "B").1
      (joinResolve BASE_DIR "notes.txt") = some "B" :=
  ⟨by decide, by decide, by decide,
    C5_edit_overwrites fs0 "notes.txt" "A" "B" (by decide) (by decide)
      (by decide)⟩

/-- C6: on every state and every request, `/create` and `/edit` produce
the same filesystem effect, the same status code, and the same error
classification (they differ only in the fixed success message text). -/
theorem C6_create_edit_equivalent (fs : FS) (n c : String) :
    (createHandler fs n c).1 = (editHandler fs n c).1 ∧
    (createHandler fs n c).2.status = (editHandler fs n c).2.status ∧
    (createHandler fs n c).2.body.isError = (editHandler fs n c).2.body.isError := by
  unfold createHandler editHandler
  cases hw : writeFile fs (joinResolve BASE_DIR n) c <;> simp [hw, Body.isError]

/-- C1 is refuted by the code: the traversal filename
`../../../../../etc/passwd` is not rejected — `/create` responds 200,
mutates the filesystem, and the written path `/etc/passwd` lies strictly
outside the storage root. -/
theorem C1_traversal_not_rejected :
    (createHandler fs0 "../../../../../etc/passwd" "x").2.status = 200 ∧
    getFile (createHandler fs0 "../../../../../etc/passwd" "x").1
      ["etc", "passwd"] = some "x" ∧
    insideBase ["etc", "passwd"] = false ∧
    (createHandler fs0 "../../../../../etc/passwd" "x").1 ≠ fs0 := by
  decide

/-- C2 is refuted by the code: a bad-input request (path traversal) is
answered with a 200 success rather than any failure, and the failures
that do occur — delete of a missing file, write into a missing
directory — share the same status 500 and the same error body shape, an
`{ error: err.message }` with no structured kind. -/
theorem C2_no_error_taxonomy :
    (createHandler fs0 "../../../../../etc/passwd" "x").2.status = 200 ∧
    (deleteHandler fs0 "missing.txt").2 =
      ⟨500, .error (FsErr.message
        (.enoentUnlink (BASE_DIR ++ ["missing.txt"])))⟩ ∧
    (createHandler fs0 "nodir/f.txt" "x").2 =
      ⟨500, .error (FsErr.message
        (.enoentOpen (BASE_DIR ++ ["nodir", "f.txt"])))⟩ ∧
    (deleteHandler fs0 "missing.txt").2.status =
      (createHandler fs0 "nodir/f.txt" "x").2.status := by
  decide

/-- C3 counterexample: deleting a nonexistent file and deleting via an
invalid traversal filename yield responses with the same status and the
same error shape — the gateway has no NotFoundError kind distinct from
an InvalidPathError kind. -/
theorem C3_notfound_kind_not_distinct :
    (deleteHandler fs0 "missing.txt").2.status
      = (deleteHandler fs0 "../../../../../etc/nope.txt").2.status ∧
    (deleteHandler fs0 "missing.txt").2.body.isError = true ∧
    (deleteHandler fs0 "../../../../../etc/nope.txt").2.body.isError = true := by
  decide

/-- C3 amended: `Delete` on a filename whose resolved path holds no file
(and is not a directory) responds 500 carrying the ENOENT unlink message
and leaves the filesystem unchanged; the failure is the same
status-500/error-body classification every other failure gets, not a
distinct NotFoundError kind. -/
theorem C3_delete_missing_500_unchanged (fs : FS) (name : String)
    (hnof : getFile fs (joinResolve BASE_DIR name) = none)
    (hnod : fs.isDir (joinResolve BASE_DIR name) = false) :
    deleteHandler fs name =
      (fs, ⟨500, .error (FsErr.message
        (.enoentUnlink (joinResolve BASE_DIR name)))⟩) := by
  simp [deleteHandler, unlink, hnod, hnof]

/-- Witness for the amended C3: deleting `missing.txt` on the startup
state responds 500 with the ENOENT message and changes nothing. -/
theorem C3_delete_missing_500_unchanged_witness :
    getFile fs0 (joinResolve BASE_DIR "missing.txt") = none ∧
    fs0.isDir (joinResolve BASE_DIR "missing.txt") = false ∧
    deleteHandler fs0 "missing.txt" =
      (fs0, ⟨500, .error (FsErr.message
        (.enoentUnlink (joinResolve BASE_DIR "missing.txt")))⟩) :=
  ⟨by decide, by decide,
    C3_delete_missing_500_unchanged fs0 "missing.txt" (by decide) (by decide)⟩

/-- C7 counterexample: a successful two-file upload is answered with
exactly the same response as a one-file upload, and the fixed message
contains no digit, so it cannot name the count of files written. -/
theorem C7_message_has_no_count :
    (uploadHandler fs0 [("a.txt", "A"), ("b.txt", "B")]).2
      = (uploadHandler fs0 [("c.txt", "C")]).2 ∧
    (uploadHandler fs0 [("a.txt", "A"), ("b.txt", "B")]).2
      = ⟨200, .message "Files uploaded successfully!"⟩ ∧
    ("Files uploaded successfully!").data.all (fun c => !c.isDigit) = true := by
  decide

/-- C7 amended: every upload whose batch writes all succeed is answered
with the fixed success message, independent of the batch size. -/
theorem C7_upload_success_fixed_message (fs : FS)
    (files : List (String × String))
    (h : (multerSave fs files).2 = none) :
    (uploadHandler fs files).2 =
      ⟨200, .message "Files uploaded successfully!"⟩ := by
  unfold uploadHandler
  rcases hms : multerSave fs files with ⟨fs1, e⟩
  rw [hms] at h
  cases e
  · rfl
  · simp at h

/-- Witness for the amended C7 at a concrete two-file batch. -/
theorem C7_upload_success_fixed_message_witness :
    (multerSave fs0 [("a.txt", "A"), ("b.txt", "B")]).2 = none ∧
    (uploadHandler fs0 [("a.txt", "A"), ("b.txt", "B")]).2
      = ⟨200, .message "Files uploaded successfully!"⟩ :=
  ⟨by decide,
    C7_upload_success_fixed_message fs0 [("a.txt", "A"), ("b.txt", "B")]
      (by decide)⟩

theorem getFile_set_set_ne (fs : FS) (p q : AbsPath) (a b : String)
    (h : p ≠ q) :
    getFile (setFile (setFile fs p a) q b) p = some a := by
  have h1 : (q == p) = false := by
    simp only [beq_eq_false_iff_ne, ne_eq]
    exact fun e => h e.symm
  have h2 : (p != q) = true := by
    simp only [bne_iff_ne, ne_eq]
    exact h
  simp only [getFile, setFile, List.filter_cons, h2, if_true]
  rw [List.find?_cons_of_neg _ (by simp [h1]),
    List.find?_cons_of_pos _ (by simp)]
  rfl

/-- C8: for every pair of contents and every state with the storage
root present (as startup guarantees) and no directories occupying the
two targets, uploading the batch `a.txt ↦ a, b.txt ↦ b` stores both
files under the storage root, each holding exactly the content supplied
for it, and the request succeeds. -/
theorem C8_upload_two_files (fs : FS) (a b : String)
    (hbase : fs.isDir BASE_DIR = true)
    (ha : fs.isDir (BASE_DIR ++ ["a.txt"]) = false)
    (hb : fs.isDir (BASE_DIR ++ ["b.txt"]) = false) :
    getFile (uploadHandler fs [("a.txt", a), ("b.txt", b)]).1
      (BASE_DIR ++ ["a.txt"]) = some a ∧
    getFile (uploadHandler fs [("a.txt", a), ("b.txt", b)]).1
      (BASE_DIR ++ ["b.txt"]) = some b ∧
    (uploadHandler fs [("a.txt", a), ("b.txt", b)]).2.status = 200 := by
  have hja : joinResolve BASE_DIR "a.txt" = BASE_DIR ++ ["a.txt"] := by decide
  have hjb : joinResolve BASE_DIR "b.txt" = BASE_DIR ++ ["b.txt"] := by decide
  have hwa : writeFile fs (joinResolve BASE_DIR "a.txt") a
      = .ok (setFile fs (BASE_DIR ++ ["a.txt"]) a) := by
    rw [hja]
    refine writeFile_ok fs _ a ha ?_
    rw [parentDir_child]
    exact hbase
  have hwb : writeFile (setFile fs (BASE_DIR ++ ["a.txt"]) a)
        (joinResolve BASE_DIR "b.txt") b
      = .ok (setFile (setFile fs (BASE_DIR ++ ["a.txt"]) a)
          (BASE_DIR ++ ["b.txt"]) b) := by
    rw [hjb]
    refine writeFile_ok _ _ b ?_ ?_
    · rw [setFile_isDir]
      exact hb
    · rw [parentDir_child, setFile_isDir]
      exact hbase
  have hup : uploadHandler fs [("a.txt", a), ("b.txt", b)]
      = (setFile (setFile fs (BASE_DIR ++ ["a.txt"]) a)
          (BASE_DIR ++ ["b.txt"]) b,
         ⟨200, .message "Files uploaded successfully!"⟩) := by
    simp only [uploadHandler, multerSave, hwa, hwb]
  rw [hup]
  exact ⟨getFile_set_set_ne fs _ _ a b (by decide),
    getFile_setFile_self _ _ b, rfl⟩

/-- Witness for C8: uploading `a.txt ↦ hello, b.txt ↦ world` from the
startup state stores both files with their respective contents. -/
theorem C8_upload_two_files_witness :
    fs0.isDir BASE_DIR = true ∧
    fs0.isDir (BASE_DIR ++ ["a.txt"]) = false ∧
    fs0.isDir (BASE_DIR ++ ["b.txt"]) = false ∧
    getFile (uploadHandler fs0 [("a.txt", "hello"), ("b.txt", "world")]).1
      (BASE_DIR ++ ["a.txt"]) = some "hello" ∧
    getFile (uploadHandler fs0 [("a.txt", "hello"), ("b.txt", "world")]).1
      (BASE_DIR ++ ["b.txt"]) = some "world" :=
  ⟨by decide, by decide, by decide,
    (C8_upload_two_files fs0 "hello" "world" (by decide) (by decide)
      (by decide)).1,
    (C8_upload_two_files fs0 "hello" "world" (by decide) (by decide)
      (by decide)).2.1⟩

/-- C9: an empty upload batch mutates nothing and is answered with
exactly the success response a non-empty upload receives — the
non-empty-batch precondition is not checked. -/
theorem C9_empty_upload_same_success (fs : FS) :
    uploadHandler fs [] =
      (fs, ⟨200, .message "Files uploaded successfully!"⟩) ∧
    (uploadHandler fs []).2 = (uploadHandler fs0 [("a.txt", "A")]).2 := by
  constructor
  · rfl
  · show (⟨200, Body.message "Files uploaded successfully!"⟩ : Response)
        = (uploadHandler fs0 [("a.txt", "A")]).2
    decide

theorem createHandler_status200 (fs : FS) (n c : String)
    (h : (createHandler fs n c).2.status = 200) :
    (createHandler fs n c).2 =
      ⟨200, .message "File created successfully!"⟩ := by
  rcases hw : writeFile fs (joinResolve BASE_DIR n) c with e | fs1
  · simp only [createHandler, hw] at h
    simp at h
  · simp only [createHandler, hw]

theorem editHandler_status200 (fs : FS) (n c : String)
    (h : (editHandler fs n c).2.status = 200) :
    (editHandler fs n c).2 =
      ⟨200, .message "File edited successfully!"⟩ := by
  rcases hw : writeFile fs (joinResolve BASE_DIR n) c with e | fs1
  · simp only [editHandler, hw] at h
    simp at h
  · simp only [editHandler, hw]

theorem deleteHandler_status200 (fs : FS) (n : String)
    (h : (deleteHandler fs n).2.status = 200) :
    (deleteHandler fs n).2 =
      ⟨200, .message "File deleted successfully!"⟩ := by
  rcases hw : unlink fs (joinResolve BASE_DIR n) with e | fs1
  · simp only [deleteHandler, hw] at h
    simp at h
  · simp only [deleteHandler, hw]

theorem uploadHandler_status200 (fs : FS) (files : List (String × String))
    (h : (uploadHandler fs files).2.status = 200) :
    (uploadHandler fs files).2 =
      ⟨200, .message "Files uploaded successfully!"⟩ := by
  unfold uploadHandler at h ⊢
  rcases hms : multerSave fs files with ⟨fs1, e⟩
  rw [hms] at h
  cases e
  · rfl
  · simp at h

/-- C10: whenever two requests to the same endpoint both succeed, their
responses are identical — each endpoint answers success with one fixed
string, revealing nothing about the filename or content supplied. -/
theorem C10_success_reveals_nothing :
    (∀ fs fsb : FS, ∀ n c nb cb : String,
      (createHandler fs n c).2.status = 200 →
      (createHandler fsb nb cb).2.status = 200 →
      (createHandler fs n c).2 = (createHandler fsb nb cb).2) ∧
    (∀ fs fsb : FS, ∀ n c nb cb : String,
      (editHandler fs n c).2.status = 200 →
      (editHandler fsb nb cb).2.status = 200 →
      (editHandler fs n c).2 = (editHandler fsb nb cb).2) ∧
    (∀ fs fsb : FS, ∀ n nb : String,
      (deleteHandler fs n).2.status = 200 →
      (deleteHandler fsb nb).2.status = 200 →
      (deleteHandler fs n).2 = (deleteHandler fsb nb).2) ∧
    (∀ fs fsb : FS, ∀ l lb : List (String × String),
      (uploadHandler fs l).2.status = 200 →
      (uploadHandler fsb lb).2.status = 200 →
      (uploadHandler fs l).2 = (uploadHandler fsb lb).2) := by
  refine ⟨fun fs fsb n c nb cb h hb => ?_, fun fs fsb n c nb cb h hb => ?_,
    fun fs fsb n nb h hb => ?_, fun fs fsb l lb h hb => ?_⟩
  · rw [createHandler_status200 fs n c h, createHandler_status200 fsb nb cb hb]
  · rw [editHandler_status200 fs n c h, editHandler_status200 fsb nb cb hb]
  · rw [deleteHandler_status200 fs n h, deleteHandler_status200 fsb nb hb]
  · rw [uploadHandler_status200 fs l h, uploadHandler_status200 fsb lb hb]

/-- Witness for C10: two successful `/create` requests with different
filenames and contents receive exactly the same response. -/
theorem C10_success_reveals_nothing_witness :
    (createHandler fs0 "a.txt" "x").2.status = 200 ∧
    (createHandler fs0 "b.txt" "yy").2.status = 200 ∧
    (createHandler fs0 "a.txt" "x").2 = (createHandler fs0 "b.txt" "yy").2 :=
  ⟨by decide, by decide,
    C10_success_reveals_nothing.1 fs0 fs0 "a.txt" "x" "b.txt" "yy"
      (by decide) (by decide)⟩
